import Mathlib

/-!
Shallow embedding of the event-dispatch core of the repository
(`lambda_handler.py`) and the paginated list / create routes of the
Flask service (`app_flask.py`), together with proofs of the behavioural
claims about classification, per-record failure isolation, cleanup
abort-on-first-failure, error-body contents and limit clamping.

Python dynamics are modelled explicitly: an untyped JSON-like value type
`Val`, and `Except PyErr` for expressions that can raise.  `PyErr`
distinguishes botocore `ClientError` from every other exception class,
since several handlers catch only `ClientError`.  Wall-clock time and the
external DynamoDB table are abstracted into parameters (`now : Int`, a
`Store` record of collaborator behaviours); the handlers additionally
return the list of collaborator calls they attempted, so that claims
about which calls happen can be stated.
-/

/-- Untyped Python/JSON value, as passed around by the handlers. -/
inductive Val where
  | null
  | bool (b : Bool)
  | num (n : Int)
  | str (s : String)
  | list (xs : List Val)
  | dict (fields : List (String × Val))

/-- Python `v == s` against a string literal `s`: true exactly when `v`
is that string (Python `==` between a string and a value of another type
is `False` and never raises). -/
def Val.eqStr : Val → String → Bool
  | .str t, s => t == s
  | _, _ => false

/-- A raised Python exception.  `clientError` models botocore's
`ClientError` (caught by several `except ClientError` clauses); `other`
models every other exception class (`KeyError`, `TypeError`, ...).
The string is the exception text `str(e)`. -/
inductive PyErr where
  | clientError (msg : String)
  | other (msg : String)
deriving DecidableEq, Repr

/-- The exception text `str(e)`. -/
def PyErr.msg : PyErr → String
  | .clientError m => m
  | .other m => m

/-- Python truthiness of a value (`if x:`).  Never raises for these types. -/
def Val.truthy : Val → Bool
  | .null => false
  | .bool b => b
  | .num n => n != 0
  | .str s => !s.isEmpty
  | .list xs => !xs.isEmpty
  | .dict fs => !fs.isEmpty

/-- Does the character list `pat` start the character list `s`? -/
def charsStart (s pat : List Char) : Bool :=
  match s, pat with
  | _, [] => true
  | [], _ :: _ => false
  | a :: as, b :: bs => a == b && charsStart as bs

/-- Does `pat` occur as a contiguous run inside `s`? -/
def charsHaveSub (pat : List Char) : List Char → Bool
  | [] => charsStart [] pat
  | c :: rest => charsStart (c :: rest) pat || charsHaveSub pat rest

/-- Python `k in v` (membership test): key test on a dict, element test on
a list, substring test on a string; `TypeError` on null/bool/num. -/
def pyContains (v : Val) (k : String) : Except PyErr Bool :=
  match v with
  | .dict fs => .ok (fs.any (fun p => p.1 == k))
  | .list xs => .ok (xs.any (fun x => x.eqStr k))
  | .str s => .ok (charsHaveSub k.toList s.toList)
  | _ => .error (.other "TypeError: argument is not iterable")

/-- Python `v[k]` with a string key: dict lookup (`KeyError` when absent),
`TypeError` on every other type. -/
def pyGetItem (v : Val) (k : String) : Except PyErr Val :=
  match v with
  | .dict fs =>
    match fs.lookup k with
    | some x => .ok x
    | none => .error (.other ("KeyError: " ++ k))
  | _ => .error (.other "TypeError: value is not subscriptable with a string")

/-- Python `v[i]` with a non-negative integer index: list/str indexing
(`IndexError` out of range), `KeyError` for a string-keyed dict,
`TypeError` otherwise. -/
def pyIndex (v : Val) (i : Nat) : Except PyErr Val :=
  match v with
  | .list xs =>
    match xs.get? i with
    | some x => .ok x
    | none => .error (.other "IndexError: list index out of range")
  | .str s =>
    match s.toList.get? i with
    | some c => .ok (.str (String.mk [c]))
    | none => .error (.other "IndexError: string index out of range")
  | .dict _ => .error (.other "KeyError: integer key")
  | _ => .error (.other "TypeError: value is not subscriptable")

/-- Python `v.get(k, default)`: only dicts have `.get`; anything else
raises `AttributeError`. -/
def pyDictGet (v : Val) (k : String) (default : Val) : Except PyErr Val :=
  match v with
  | .dict fs => .ok ((fs.lookup k).getD default)
  | _ => .error (.other "AttributeError: value has no attribute get")

/-- Python `for x in v`: a list yields its elements, a dict its keys, a
string its characters; `TypeError` otherwise. -/
def pyIter (v : Val) : Except PyErr (List Val) :=
  match v with
  | .list xs => .ok xs
  | .dict fs => .ok (fs.map (fun p => Val.str p.1))
  | .str s => .ok (s.toList.map (fun c => Val.str (String.mk [c])))
  | _ => .error (.other "TypeError: value is not iterable")

/-- `determine_event_source` from `lambda_handler.py`: shape-based
classification of the incoming event.  The `elif 'httpMethod' ...` arm
chains to the OUTER `if 'Records' in event:`, exactly as in the source,
so the mere presence of a `Records` key prevents the method/path check.
Each Python subexpression that can raise is sequenced through `Except`. -/
def determine_event_source (event : Val) : Except PyErr String := do
  let hasRecs ← pyContains event "Records"
  if hasRecs then
    -- if event['Records'] and 'dynamodb' in event['Records'][0]:
    let recs1 ← pyGetItem event "Records"
    if recs1.truthy then
      let first1 ← pyIndex recs1 0
      let isDyn ← pyContains first1 "dynamodb"
      if isDyn then
        pure "dynamodb"
      else
        -- elif event['Records'] and 's3' in event['Records'][0]:
        let recs2 ← pyGetItem event "Records"
        if recs2.truthy then
          let first2 ← pyIndex recs2 0
          let isS3 ← pyContains first2 "s3"
          if isS3 then pure "s3" else pure "unknown"
        else
          pure "unknown"
    else
      -- both `and` conditions short-circuit on the falsy Records value
      pure "unknown"
  else
    let hasMethod ← pyContains event "httpMethod"
    let isApi ← if hasMethod then pyContains event "path" else pure false
    if isApi then
      pure "api_gateway"
    else
      let hasSource ← pyContains event "source"
      let isSched ←
        if hasSource then do
          let s ← pyGetItem event "source"
          pure (s.eqStr "aws.events")
        else
          pure false
      if isSched then pure "cloudwatch_events" else pure "unknown"

/-- The uniform response shape `{statusCode, body}`.  In the source the
body is a `json.dumps` string; here it is kept as the JSON value that was
serialized. -/
structure Envelope where
  statusCode : Nat
  body : Val

/-- The Lambda runtime context; only `request_id` is read (line 78). -/
structure Context where
  request_id : String

/-- Behaviour of the external DynamoDB table collaborator for one
invocation.  `scan` is `table.scan(Limit=n)` (returning the page items
and the optional `LastEvaluatedKey`); `scanExpired` is the filtered
`table.scan(FilterExpression='expiration_time < :now', ...)` of the
cleanup task; `deleteItem`/`putItem` take the `Key=`/`Item=` argument.
A `.error` result models the boto3 call raising. -/
structure Store where
  scan : Int → Except PyErr (List Val × Option Val)
  scanExpired : Except PyErr (List Val)
  deleteItem : Val → Except PyErr Unit
  putItem : Val → Except PyErr Unit

/-- Models boto3's `TypeDeserializer.deserialize` on the fragment of
DynamoDB attribute values this repository's stream records use
(`S`/`N`/`BOOL`/`NULL` markers; `N` holds a decimal string, modelled on
integers).  Any other shape raises `TypeError`, as the real deserializer
does for a non-dict or unrecognized tag. -/
def deserializeAttr : Val → Except PyErr Val
  | Val.dict [("S", v)] => .ok v
  | Val.dict [("N", Val.str s)] =>
    match s.toInt? with
    | some n => .ok (Val.num n)
    | none => .error (.other "ValueError: invalid numeric value")
  | Val.dict [("BOOL", v)] => .ok v
  | Val.dict [("NULL", _)] => .ok Val.null
  | _ => .error (.other "TypeError: malformed DynamoDB attribute value")

/-- `deserialize_dynamodb_item`: converts a DynamoDB-typed mapping to a
plain mapping; `item.items()` raises `AttributeError` on a non-dict. -/
def deserialize_dynamodb_item (item : Val) : Except PyErr Val :=
  match item with
  | Val.dict fields => do
    let pairs ← fields.mapM (fun p => do
      let v ← deserializeAttr p.2
      pure (p.1, v))
    pure (Val.dict pairs)
  | _ => .error (.other "AttributeError: value has no attribute items")

/-- The per-record body of the loop in `process_dynamodb_stream`
(lines 136-158): the extractions and the notification argument that can
raise, in source order.  `send_notification` itself swallows its own
errors, but its f-string argument `new_image['user_id']['S']` is
evaluated first and can raise. -/
def processStreamRecord (record : Val) : Except PyErr Unit := do
  let eventName ← pyGetItem record "eventName"
  let dyn ← pyGetItem record "dynamodb"
  let keys ← pyDictGet dyn "Keys" (Val.dict [])
  let newImage ← pyDictGet dyn "NewImage" (Val.dict [])
  let _oldImage ← pyDictGet dyn "OldImage" (Val.dict [])
  -- the audit-log f-strings evaluate deserialize_dynamodb_item(keys)
  if eventName.eqStr "INSERT" || eventName.eqStr "MODIFY"
      || eventName.eqStr "REMOVE" then do
    let _ ← deserialize_dynamodb_item keys
    pure ()
  if eventName.eqStr "INSERT" then do
    let hasUser ← pyContains newImage "user_id"
    if hasUser then do
      let u ← pyGetItem newImage "user_id"
      let _ ← pyGetItem u "S"
      pure ()  -- send_notification: best-effort, all its errors swallowed
  pure ()

/-- The counting loop of `process_dynamodb_stream`: per-record failures
increment `failed_count` and processing continues with the next record. -/
def streamLoop : List Val → Nat × Nat → Nat × Nat
  | [], acc => acc
  | r :: rest, (p, f) =>
    match processStreamRecord r with
    | .ok _ => streamLoop rest (p + 1, f)
    | .error _ => streamLoop rest (p, f + 1)

/-- `process_dynamodb_stream` (lines 106-178).  The two `publish_metric`
calls are best-effort side channels that swallow every exception, so they
do not appear in the result. -/
def process_dynamodb_stream (event : Val) : Except PyErr Envelope := do
  let recordsVal ← pyDictGet event "Records" (Val.list [])
  let records ← pyIter recordsVal
  let counts := streamLoop records (0, 0)
  pure ⟨200, Val.dict [("processed", Val.num counts.1),
                       ("failed", Val.num counts.2)]⟩

/-- `process_api_gateway_request` (lines 184-231): only `GET /items` is
routed; it scans with a fixed page size of 10 and maps `ClientError` to a
500 with the fixed body `Database error`; other store exceptions
propagate.  Unmatched routes return 404. -/
def process_api_gateway_request (store : Store) (event : Val) :
    Except PyErr Envelope := do
  let method ← pyDictGet event "httpMethod" (Val.str "GET")
  let path ← pyDictGet event "path" (Val.str "/")
  if method.eqStr "GET" && path.eqStr "/items" then
    match store.scan 10 with
    | .ok page =>
      pure ⟨200, Val.dict [("items", Val.list page.1)]⟩
    | .error (.clientError _) =>
      pure ⟨500, Val.dict [("error", Val.str "Database error")]⟩
    | .error (.other m) => throw (.other m)
  else
    pure ⟨404, Val.dict [("error", Val.str "Not found")]⟩

/-- The deletion loop of `process_scheduled_task` (lines 264-267), with
the list of `delete_item` keys actually attempted made explicit.  The
first exception (building the key or deleting) aborts the loop. -/
def cleanupLoop (deleteItem : Val → Except PyErr Unit) :
    List Val → Nat → Except PyErr Nat × List Val
  | [], deleted => (.ok deleted, [])
  | item :: rest, deleted =>
    match (do
        let i ← pyGetItem item "id"
        let t ← pyGetItem item "timestamp"
        pure (Val.dict [("id", i), ("timestamp", t)]) : Except PyErr Val) with
    | .error e => (.error e, [])
    | .ok key =>
      match deleteItem key with
      | .error e => (.error e, [key])
      | .ok _ =>
        let rec1 := cleanupLoop deleteItem rest (deleted + 1)
        (rec1.1, key :: rec1.2)

/-- `process_scheduled_task` (lines 237-279).  Returns the envelope
together with the list of `delete_item` keys attempted.  The `except
Exception` clause catches everything and builds the 500 body from
`str(e)` — the raw exception text (line 279). -/
def process_scheduled_task (store : Store) : Envelope × List Val :=
  match store.scanExpired with
  | .error e => (⟨500, Val.dict [("error", Val.str e.msg)]⟩, [])
  | .ok items =>
    match cleanupLoop store.deleteItem items 0 with
    | (.ok n, calls) =>
      (⟨200, Val.dict [("deleted", Val.num n)]⟩, calls)
    | (.error e, calls) =>
      (⟨500, Val.dict [("error", Val.str e.msg)]⟩, calls)

/-- One iteration of the `process_s3_event` loop (lines 309-326): the
`record['s3']` extractions sit OUTSIDE the try, so their exceptions
propagate; inside the try, `key.replace` requires a string (an
`AttributeError` there is not a `ClientError` and also propagates), and
the `put_item` call has its `ClientError` caught and logged. -/
def s3Loop (store : Store) (now : Int) : List Val → Except PyErr (List Val)
  | [] => .ok []
  | r :: rest => do
    let s3 ← pyGetItem r "s3"
    let bucketObj ← pyGetItem s3 "bucket"
    let bucket ← pyGetItem bucketObj "name"
    let obj ← pyGetItem s3 "object"
    let key ← pyGetItem obj "key"
    let keyStr ← match key with
      | Val.str s => pure s
      | _ => throw (.other "AttributeError: value has no attribute replace")
    let item := Val.dict [
      ("id", Val.str ("s3-" ++ String.map (fun c => if c == '/' then '-' else c) keyStr)),
      ("timestamp", Val.num (now * 1000)),
      ("type", Val.str "file_upload"),
      ("bucket", bucket),
      ("key", key),
      ("uploaded_at", Val.str (toString now))]
    match store.putItem item with
    | .ok _ => pure ()
    | .error (.clientError _) => pure ()  -- logged and swallowed
    | .error (.other m) => throw (.other m)
    let restItems ← s3Loop store now rest
    pure (item :: restItems)

/-- `process_s3_event` (lines 285-328).  Returns the envelope together
with the list of `put_item` items attempted.  The final body reports
`len(event.get('Records', []))` — the total attempted, not a success
count.  Wall-clock time is the `now` parameter (epoch seconds). -/
def process_s3_event (store : Store) (now : Int) (event : Val) :
    Except PyErr (Envelope × List Val) := do
  let recordsVal ← pyDictGet event "Records" (Val.list [])
  let records ← pyIter recordsVal
  let puts ← s3Loop store now records
  pure (⟨200, Val.dict [("processed", Val.num records.length)]⟩, puts)

/-- `lambda_handler` (lines 59-100).  `context.request_id` and the
logging call to `determine_event_source` (lines 78-79) run BEFORE the
try, so a classification exception propagates out of the function; inside
the try, dispatch by tag, with the catch-all converting any exception
into a 500 `Internal error` envelope. -/
def lambda_handler (store : Store) (now : Int) (event : Val)
    (context : Context) : Except PyErr Envelope := do
  let _requestId := context.request_id
  let _logged ← determine_event_source event  -- line 79, outside the try
  match (do
      let eventSource ← determine_event_source event
      if eventSource = "dynamodb" then
        process_dynamodb_stream event
      else if eventSource = "api_gateway" then
        process_api_gateway_request store event
      else if eventSource = "cloudwatch_events" then
        pure (process_scheduled_task store).1
      else if eventSource = "s3" then do
        let r ← process_s3_event store now event
        pure r.1
      else
        pure ⟨400, Val.dict [("error", Val.str "Unknown event source")]⟩
      : Except PyErr Envelope) with
  | .ok env => pure env
  | .error _ => pure ⟨500, Val.dict [("error", Val.str "Internal error")]⟩

/-- The value of a decimal digit character, if it is one. -/
def charDigit (c : Char) : Option Nat :=
  if c.isDigit then some (c.toNat - 48) else none

/-- Accumulate the value of a run of decimal digits. -/
def digitsVal : List Char → Nat → Option Nat
  | [], acc => some acc
  | c :: cs, acc =>
    match charDigit c with
    | some d => digitsVal cs (acc * 10 + d)
    | none => none

/-- Python `int(s)` on a string, modelled on the integer literals the
routes receive (an optional sign followed by decimal digits; anything
else raises `ValueError`, which is not a `ClientError`). -/
def pyInt (s : String) : Except PyErr Int :=
  match s.toList with
  | '-' :: c :: cs =>
    match digitsVal (c :: cs) 0 with
    | some n => .ok (-(n : Int))
    | none => .error (.other ("ValueError: invalid literal for int: " ++ s))
  | '+' :: c :: cs =>
    match digitsVal (c :: cs) 0 with
    | some n => .ok (n : Int)
    | none => .error (.other ("ValueError: invalid literal for int: " ++ s))
  | c :: cs =>
    match digitsVal (c :: cs) 0 with
    | some n => .ok (n : Int)
    | none => .error (.other ("ValueError: invalid literal for int: " ++ s))
  | [] => .error (.other ("ValueError: invalid literal for int: " ++ s))

/-- The `ENVIRONMENT` configuration constant of `app_flask.py` at its
default value. -/
def ENVIRONMENT : String := "dev"

/-- The body of `create_item` in `app_flask.py` (lines 145-188) up to the
two except clauses: `data` is the parsed request JSON (`Val.null` when
`request.get_json()` returns None).  `not data` short-circuits the
membership test; a truthy non-container makes `'name' not in data` raise.
Wall-clock time is the `now` parameter (epoch seconds). -/
def create_item_inner (store : Store) (now : Int) (data : Val) :
    Except PyErr Envelope := do
  let missingName ←
    if !data.truthy then pure true
    else do
      let hasName ← pyContains data "name"
      pure (!hasName)
  if missingName then
    pure ⟨400, Val.dict [("error", Val.str "Missing required field: name")]⟩
  else do
    let name ← pyGetItem data "name"
    let description ← pyDictGet data "description" (Val.str "")
    let item := Val.dict [
      ("id", Val.str ("item-" ++ toString now)),
      ("timestamp", Val.num (now * 1000)),
      ("name", name),
      ("description", description),
      ("created_at", Val.str (toString now)),
      ("environment", Val.str ENVIRONMENT)]
    let _ ← store.putItem item
    -- publish_metric('ItemsCreated', 1): best-effort, swallows errors
    pure ⟨201, Val.dict [("message", Val.str "Item created successfully"),
                         ("item", item)]⟩

/-- `create_item` (lines 145-195): `except ClientError` yields the fixed
`Database error` body, `except Exception` the fixed
`Internal server error` body. -/
def create_item (store : Store) (now : Int) (data : Val) : Envelope :=
  match create_item_inner store now data with
  | .ok env => env
  | .error (.clientError _) =>
    ⟨500, Val.dict [("error", Val.str "Database error")]⟩
  | .error (.other _) =>
    ⟨500, Val.dict [("error", Val.str "Internal server error")]⟩

/-- `list_items` (lines 229-257).  `args` is the request query string as
key/value pairs; only `limit` is ever read — `last_key` is accepted but
never consulted.  The caller limit is capped with `min(int(..), 100)` (no
lower bound).  The result pairs the route outcome (an envelope, or a
propagating non-`ClientError` exception such as the `ValueError` from
`int`) with the list of scan page sizes passed to the store. -/
def list_items (store : Store) (args : List (String × String)) :
    Except PyErr Envelope × List Int :=
  match (match args.lookup "limit" with
         | none => .ok (10 : Int)
         | some s => pyInt s : Except PyErr Int) with
  | .error e => (.error e, [])
  | .ok rawLimit =>
    let limit := min rawLimit 100
    match store.scan limit with
    | .ok page =>
      (.ok ⟨200, Val.dict [
          ("items", Val.list page.1),
          ("count", Val.num page.1.length),
          ("last_evaluated_key", page.2.getD Val.null),
          ("message", Val.str "Use last_evaluated_key parameter for next page")]⟩,
       [limit])
    | .error (.clientError _) =>
      (.ok ⟨500, Val.dict [("error", Val.str "Database error")]⟩, [limit])
    | .error (.other m) => (.error (.other m), [limit])

/-- `True` exactly when the computation did not raise. -/
def exceptOk {α : Type} : Except PyErr α → Bool
  | .ok _ => true
  | .error _ => false

/-- A successful key test on a field list yields a successful lookup. -/
theorem lookup_some_of_any {β : Type} (k : String) :
    ∀ fs : List (String × β), (fs.any fun p => p.1 == k) = true →
      ∃ v, fs.lookup k = some v := by
  intro fs h
  induction fs with
  | nil => simp at h
  | cons p rest ih =>
    rw [List.any_cons] at h
    rw [Bool.or_eq_true] at h
    rcases h with hk | hrest
    · have : p.1 = k := by simpa using hk
      exact ⟨p.2, by simp [List.lookup, this]⟩
    · obtain ⟨v, hv⟩ := ih hrest
      by_cases hk : k == p.1
      · exact ⟨p.2, by simp [List.lookup, hk]⟩
      · exact ⟨v, by simp [List.lookup, hk, hv]⟩

/-- A successful lookup on a field list yields a successful key test. -/
theorem any_of_lookup_some {β : Type} (k : String) :
    ∀ (fs : List (String × β)) (v : β), fs.lookup k = some v →
      (fs.any fun p => p.1 == k) = true := by
  intro fs v h
  induction fs with
  | nil => simp [List.lookup] at h
  | cons p rest ih =>
    by_cases hk : k == p.1
    · have : p.1 = k := by simpa using (eq_of_beq hk).symm
      simp [List.any_cons, this]
    · rw [List.lookup] at h
      simp only [hk] at h
      simp [List.any_cons, ih h]

/-- The five classification results of `determine_event_source`. -/
def isSourceTag (s : String) : Bool :=
  s == "dynamodb" || s == "s3" || s == "api_gateway" ||
  s == "cloudwatch_events" || s == "unknown"

/-- C2 counterexample: classification is not total over all input shapes —
on a null event the very first membership test `'Records' in event`
raises `TypeError`, as it would on any non-container event. -/
theorem classify_raises_on_null_event :
    determine_event_source Val.null =
      .error (.other "TypeError: argument is not iterable") := rfl

/-- C2 (amended): restricted to events that are string-keyed mappings
whose `records` entry, when present and truthy, is a non-empty sequence
with a mapping as its first element, classification is total: it returns
exactly one of the five source tags and never raises. -/
theorem classify_total_on_mappings (fs : List (String × Val))
    (h : ∀ v, fs.lookup "Records" = some v → v.truthy = true →
         ∃ x xs, v = Val.list (x :: xs) ∧ ∃ gs, x = Val.dict gs) :
    ∃ tag, determine_event_source (Val.dict fs) = .ok tag ∧
      isSourceTag tag = true := by
  unfold determine_event_source
  simp only [pyContains, bind, Except.bind]
  cases hrec : fs.any (fun p => p.1 == "Records") with
  | true =>
    obtain ⟨v, hv⟩ := lookup_some_of_any "Records" fs hrec
    simp only [hrec, pyGetItem, hv, if_true]
    cases htr : v.truthy with
    | false => exact ⟨"unknown", by simp [htr, pure, Except.pure], rfl⟩
    | true =>
      obtain ⟨x, xs, rfl, gs, rfl⟩ := h v hv htr
      simp only [htr, pyIndex, List.get?, pyContains]
      cases hdyn : gs.any (fun p => p.1 == "dynamodb") with
      | true => exact ⟨"dynamodb", by simp [hdyn, pure, Except.pure], rfl⟩
      | false =>
        cases hs3 : gs.any (fun p => p.1 == "s3") with
        | true => exact ⟨"s3", by simp [hdyn, hs3, htr, pure, Except.pure, isSourceTag]⟩
        | false => exact ⟨"unknown", by simp [hdyn, hs3, htr, pure, Except.pure, isSourceTag]⟩
  | false =>
    simp only [hrec, Bool.false_eq_true, if_false]
    cases hm : fs.any (fun p => p.1 == "httpMethod") with
    | true =>
      cases hp : fs.any (fun p => p.1 == "path") with
      | true => exact ⟨"api_gateway", by simp [hm, hp, pure, Except.pure], rfl⟩
      | false =>
        cases hsrc : fs.any (fun p => p.1 == "source") with
        | true =>
          obtain ⟨v, hv⟩ := lookup_some_of_any "source" fs hsrc
          cases hsched : v.eqStr "aws.events" with
          | true =>
            exact ⟨"cloudwatch_events",
              by simp [hm, hp, hsrc, pyGetItem, hv, hsched, pure, Except.pure], rfl⟩
          | false =>
            exact ⟨"unknown",
              by simp [hm, hp, hsrc, pyGetItem, hv, hsched, pure, Except.pure], rfl⟩
        | false => exact ⟨"unknown", by simp [hm, hp, hsrc, pure, Except.pure], rfl⟩
    | false =>
      cases hsrc : fs.any (fun p => p.1 == "source") with
      | true =>
        obtain ⟨v, hv⟩ := lookup_some_of_any "source" fs hsrc
        cases hsched : v.eqStr "aws.events" with
        | true =>
          exact ⟨"cloudwatch_events",
            by simp [hm, hsrc, pyGetItem, hv, hsched, pure, Except.pure], rfl⟩
        | false =>
          exact ⟨"unknown",
            by simp [hm, hsrc, pyGetItem, hv, hsched, pure, Except.pure], rfl⟩
      | false => exact ⟨"unknown", by simp [hm, hsrc, pure, Except.pure], rfl⟩

/-- Witness for the amended C2 at a concrete mapping with no records
key (an empty event). -/
theorem classify_total_on_mappings_witness :
    ∃ tag, determine_event_source (Val.dict []) = .ok tag ∧
      isSourceTag tag = true :=
  classify_total_on_mappings [] (by intro v hv; cases hv)

/-- C4: every string-keyed mapping event whose records entry is the
empty sequence classifies as `unknown` — never `dynamodb` (StreamBatch)
and never `s3` (ObjectStorageBatch): the falsy empty list makes both
`and` conditions short-circuit. -/
theorem classify_empty_records_unknown (fs : List (String × Val))
    (h : fs.lookup "Records" = some (Val.list [])) :
    determine_event_source (Val.dict fs) = .ok "unknown" := by
  have hany := any_of_lookup_some "Records" fs (Val.list []) h
  simp [determine_event_source, pyContains, pyGetItem, hany, h, Val.truthy,
        pure, Except.pure, bind, Except.bind]

/-- Witness for C4 at a concrete event carrying only an empty records
sequence. -/
theorem classify_empty_records_unknown_witness :
    determine_event_source (Val.dict [("Records", Val.list [])]) =
      .ok "unknown" :=
  classify_empty_records_unknown [("Records", Val.list [])] rfl

/-- C3 counterexample: an event with an empty records sequence AND both
method and path attributes classifies as `unknown`, not as `api_gateway`
(HttpRequest) — because the `elif 'httpMethod' ...` arm belongs to the
outer `if 'Records' in event:`, the presence of the records key prevents
the method/path check from ever running. -/
theorem classify_empty_records_http_cex :
    determine_event_source
        (Val.dict [("Records", Val.list []), ("httpMethod", Val.str "GET"),
                   ("path", Val.str "/api/items")]) = .ok "unknown" ∧
    determine_event_source
        (Val.dict [("Records", Val.list []), ("httpMethod", Val.str "GET"),
                   ("path", Val.str "/api/items")]) ≠ .ok "api_gateway" :=
  ⟨rfl, fun h => absurd (Except.ok.inj h) (by decide)⟩

/-- C3 (amended): an event with an empty records sequence and both
method and path attributes does not match the stream/object-storage
branches, but it does NOT fall through to the method/path step either:
the classifier returns `unknown` (never `api_gateway`), since the mere
presence of the records key selects the records arm of the dispatch. -/
theorem classify_empty_records_http_unknown (fs : List (String × Val))
    (m p : Val)
    (hr : fs.lookup "Records" = some (Val.list []))
    (_hm : fs.lookup "httpMethod" = some m)
    (_hp : fs.lookup "path" = some p) :
    determine_event_source (Val.dict fs) = .ok "unknown" ∧
    determine_event_source (Val.dict fs) ≠ .ok "api_gateway" := by
  have h1 := classify_empty_records_unknown fs hr
  exact ⟨h1, by rw [h1]; exact fun h => absurd (Except.ok.inj h) (by decide)⟩

/-- Witness for the amended C3 at the concrete §8-style event. -/
theorem classify_empty_records_http_unknown_witness :
    determine_event_source
        (Val.dict [("Records", Val.list []), ("httpMethod", Val.str "POST"),
                   ("path", Val.str "/")]) = .ok "unknown" ∧
    determine_event_source
        (Val.dict [("Records", Val.list []), ("httpMethod", Val.str "POST"),
                   ("path", Val.str "/")]) ≠ .ok "api_gateway" :=
  classify_empty_records_http_unknown _ (Val.str "POST") (Val.str "/")
    rfl rfl rfl

/-- The stream counting loop adds the number of records whose processing
succeeds to the first accumulator and the number whose processing raises
to the second, in one pass, never aborting. -/
theorem streamLoop_eq (rs : List Val) (p f : Nat) :
    streamLoop rs (p, f) =
      (p + rs.countP (fun r => exceptOk (processStreamRecord r)),
       f + rs.countP (fun r => !exceptOk (processStreamRecord r))) := by
  induction rs generalizing p f with
  | nil => simp [streamLoop]
  | cons r rest ih =>
    cases hr : processStreamRecord r with
    | ok u =>
      simp only [streamLoop, hr, ih, List.countP_cons, Prod.mk.injEq]
      constructor <;> simp [exceptOk, hr] <;> omega
    | error e =>
      simp only [streamLoop, hr, ih, List.countP_cons, Prod.mk.injEq]
      constructor <;> simp [exceptOk, hr] <;> omega

/-- Successes and failures partition the records of a batch. -/
theorem countP_ok_add_fail (rs : List Val) :
    rs.countP (fun r => exceptOk (processStreamRecord r)) +
      rs.countP (fun r => !exceptOk (processStreamRecord r)) = rs.length := by
  induction rs with
  | nil => simp
  | cons r rest ih =>
    cases h : exceptOk (processStreamRecord r) <;>
      simp [List.countP_cons, h] <;> omega

/-- C1: for a stream-batch event whose records sequence has `N` records
of which `M` are malformed (their per-record processing raises), the
StreamBatch handler returns status 200 with body
`{processed: N - M, failed: M}`; one failing record never aborts the
rest, and processed + failed always equals `N`. -/
theorem stream_batch_counts (fs : List (String × Val)) (rs : List Val)
    (h : fs.lookup "Records" = some (Val.list rs)) :
    process_dynamodb_stream (Val.dict fs) =
      .ok ⟨200, Val.dict [
        ("processed", Val.num (rs.length -
           rs.countP (fun r => !exceptOk (processStreamRecord r)))),
        ("failed", Val.num
           (rs.countP (fun r => !exceptOk (processStreamRecord r))))]⟩ ∧
    (rs.length - rs.countP (fun r => !exceptOk (processStreamRecord r))) +
      rs.countP (fun r => !exceptOk (processStreamRecord r)) = rs.length := by
  have hpart := countP_ok_add_fail rs
  have hproc : rs.countP (fun r => exceptOk (processStreamRecord r)) =
      rs.length - rs.countP (fun r => !exceptOk (processStreamRecord r)) := by
    omega
  constructor
  · have hloop := streamLoop_eq rs 0 0
    simp only [process_dynamodb_stream, pyDictGet, h, pyIter, bind,
      Except.bind, pure, Except.pure, Option.getD]
    rw [hloop]
    simp only [Nat.zero_add]
    rw [hproc, Nat.cast_sub (by omega)]
  · omega

/-- A concrete three-record stream batch: two well-formed records and one
malformed record (no `eventName`). -/
def streamDemoRecords : List Val :=
  [Val.dict [("eventName", Val.str "INSERT"), ("dynamodb", Val.dict [])],
   Val.dict [],
   Val.dict [("eventName", Val.str "REMOVE"),
             ("dynamodb", Val.dict
               [("Keys", Val.dict [("id", Val.dict [("S", Val.str "x")])])])]]

/-- Witness for C1: on the concrete three-record batch with one malformed
record the handler reports `processed = 2`, `failed = 1`, status 200. -/
theorem stream_batch_counts_witness :
    process_dynamodb_stream (Val.dict [("Records", Val.list streamDemoRecords)]) =
      .ok ⟨200, Val.dict [("processed", Val.num 2), ("failed", Val.num 1)]⟩ :=
  (stream_batch_counts [("Records", Val.list streamDemoRecords)]
    streamDemoRecords rfl).1

/-- The `Key={'id': .., 'timestamp': ..}` argument passed to
`delete_item` for an expired item. -/
def cleanupKey (i t : Val) : Val :=
  Val.dict [("id", i), ("timestamp", t)]

/-- An expired item as returned by the filtered scan, from its `id` and
`timestamp` attributes. -/
def expiredItem (p : Val × Val) : Val :=
  Val.dict [("id", p.1), ("timestamp", p.2)]

/-- The deletion loop attempts deletes strictly in order and stops at the
first failing delete: with every delete before `bad` succeeding and the
delete of `bad` failing, the attempted keys are exactly those of the
items up to and including `bad`, and the loop result is the exception. -/
theorem cleanupLoop_abort (del : Val → Except PyErr Unit) (e : PyErr) :
    ∀ (before : List (Val × Val)) (bad : Val × Val) (after : List (Val × Val))
      (d : Nat),
      (∀ p ∈ before, del (cleanupKey p.1 p.2) = .ok ()) →
      del (cleanupKey bad.1 bad.2) = .error e →
      cleanupLoop del ((before ++ bad :: after).map expiredItem) d =
        (.error e, (before ++ [bad]).map (fun p => cleanupKey p.1 p.2)) := by
  intro before
  induction before with
  | nil =>
    intro bad after d _ hfail
    simp only [List.nil_append, List.map_cons, cleanupLoop, expiredItem,
      pyGetItem, List.lookup, bind, Except.bind, pure, Except.pure]
    simp [cleanupKey] at hfail ⊢
    simp [hfail]
  | cons q rest ih =>
    intro bad after d hok hfail
    have hq : del (cleanupKey q.1 q.2) = .ok () := hok q (by simp)
    have hrest : ∀ p ∈ rest, del (cleanupKey p.1 p.2) = .ok () :=
      fun p hp => hok p (by simp [hp])
    simp only [List.cons_append, List.map_cons, cleanupLoop, expiredItem,
      pyGetItem, List.lookup, bind, Except.bind, pure, Except.pure]
    simp [cleanupKey] at hq ⊢
    have ih2 := ih bad after (d + 1) hrest hfail
    simp only [List.map_append, List.map_cons, List.map_nil] at ih2
    simp [hq, ih2, cleanupKey]

/-- C5: in the ScheduledTrigger cleanup handler, when the filtered scan
returns a sequence of expired items and the delete of one item fails,
no delete is attempted for any later item and the handler returns a
500 envelope. -/
theorem cleanup_abort_on_failure (store : Store)
    (before after : List (Val × Val)) (bad : Val × Val) (e : PyErr)
    (hscan : store.scanExpired = .ok ((before ++ bad :: after).map expiredItem))
    (hok : ∀ p ∈ before, store.deleteItem (cleanupKey p.1 p.2) = .ok ())
    (hfail : store.deleteItem (cleanupKey bad.1 bad.2) = .error e) :
    (process_scheduled_task store).1.statusCode = 500 ∧
    (process_scheduled_task store).2 =
      (before ++ [bad]).map (fun p => cleanupKey p.1 p.2) := by
  have habort := cleanupLoop_abort store.deleteItem e before bad after 0
    hok hfail
  simp only [List.map_append, List.map_cons, List.map_nil] at habort
  simp [process_scheduled_task, hscan, habort, cleanupKey]

/-- The §8 scenario store: the filtered scan returns three expired items
and `delete_item` fails exactly on the item whose id is `"b"`. -/
def cleanupDemoStore : Store where
  scan := fun _ => .ok ([], none)
  scanExpired := .ok
    [expiredItem (Val.str "a", Val.num 1),
     expiredItem (Val.str "b", Val.num 2),
     expiredItem (Val.str "c", Val.num 3)]
  deleteItem := fun key =>
    match pyGetItem key "id" with
    | .ok (Val.str "b") => .error (.clientError "delete failed")
    | _ => .ok ()
  putItem := fun _ => .ok ()

/-- Witness for C5 at the §8 scenario: 3 expired items, deletion of item
2 fails, the handler returns 500 and never attempts deletion of item 3. -/
theorem cleanup_abort_on_failure_witness :
    (process_scheduled_task cleanupDemoStore).1.statusCode = 500 ∧
    (process_scheduled_task cleanupDemoStore).2 =
      [cleanupKey (Val.str "a") (Val.num 1),
       cleanupKey (Val.str "b") (Val.num 2)] := by
  have := cleanup_abort_on_failure cleanupDemoStore
    [(Val.str "a", Val.num 1)] [(Val.str "c", Val.num 3)]
    (Val.str "b", Val.num 2) (.clientError "delete failed") rfl
    (by intro p hp
        simp only [List.mem_singleton] at hp
        subst hp
        rfl)
    rfl
  simpa using this

/-- A store whose filtered scan raises with one internal message. -/
def leakStoreA : Store where
  scan := fun _ => .ok ([], none)
  scanExpired := .error (.clientError "ConnectionError: store unreachable A")
  deleteItem := fun _ => .ok ()
  putItem := fun _ => .ok ()

/-- A store whose filtered scan raises with another internal message. -/
def leakStoreB : Store where
  scan := fun _ => .ok ([], none)
  scanExpired := .error (.clientError "ConnectionError: store unreachable B")
  deleteItem := fun _ => .ok ()
  putItem := fun _ => .ok ()

/-- C6 counterexample: the ScheduledTrigger cleanup handler builds its
500 body from `str(e)` (line 279), so the internal exception text IS
exposed to the caller — two stores that differ only in the internal
error text produce two different response bodies, each carrying that
text verbatim, so the body is not a fixed generic message. -/
theorem scheduled_task_leaks_exception_text :
    (process_scheduled_task leakStoreA).1 =
      ⟨500, Val.dict [("error",
        Val.str "ConnectionError: store unreachable A")]⟩ ∧
    (process_scheduled_task leakStoreB).1 =
      ⟨500, Val.dict [("error",
        Val.str "ConnectionError: store unreachable B")]⟩ :=
  ⟨rfl, rfl⟩

/-- A well-formed object-storage record carrying a bucket value and a
string object key. -/
def s3Record (bucket : Val) (key : String) : Val :=
  Val.dict [("s3", Val.dict
    [("bucket", Val.dict [("name", bucket)]),
     ("object", Val.dict [("key", Val.str key)])])]

/-- The metadata item `process_s3_event` builds and puts for one record. -/
def s3Item (now : Int) (bucket : Val) (key : String) : Val :=
  Val.dict [
    ("id", Val.str ("s3-" ++
      String.map (fun c => if c == '/' then '-' else c) key)),
    ("timestamp", Val.num (now * 1000)),
    ("type", Val.str "file_upload"),
    ("bucket", bucket),
    ("key", Val.str key),
    ("uploaded_at", Val.str (toString now))]

/-- C6 (amended): collaborator errors yield a 500 envelope with a fixed
generic body in the API-gateway branch (`Database error`), in the Flask
create handler (`Database error` for `ClientError`, otherwise
`Internal server error`), in the Flask list handler (`Database error`),
and in the top-level catch-all (`Internal error`) — the last shown on
both catch-all paths: a non-`ClientError` scan failure re-thrown by the
API-gateway branch and a non-`ClientError` put failure propagating out
of the ObjectStorageBatch handler — but the ScheduledTrigger cleanup
handler instead embeds the raw internal exception text `str(e)` in its
500 body. -/
theorem collaborator_error_bodies :
    (∀ (store : Store) (e : PyErr), store.scanExpired = .error e →
      (process_scheduled_task store).1 =
        ⟨500, Val.dict [("error", Val.str e.msg)]⟩) ∧
    (∀ (store : Store) (m : String),
      store.scan 10 = .error (.clientError m) →
      process_api_gateway_request store
          (Val.dict [("httpMethod", Val.str "GET"),
                     ("path", Val.str "/items")]) =
        .ok ⟨500, Val.dict [("error", Val.str "Database error")]⟩) ∧
    (∀ (store : Store) (now : Int) (fields : List (String × Val))
        (nm : Val) (m : String),
      fields.lookup "name" = some nm →
      (∀ v, store.putItem v = .error (.clientError m)) →
      create_item store now (Val.dict fields) =
        ⟨500, Val.dict [("error", Val.str "Database error")]⟩) ∧
    (∀ (store : Store) (now : Int) (fields : List (String × Val))
        (nm : Val) (m : String),
      fields.lookup "name" = some nm →
      (∀ v, store.putItem v = .error (.other m)) →
      create_item store now (Val.dict fields) =
        ⟨500, Val.dict [("error", Val.str "Internal server error")]⟩) ∧
    (∀ (store : Store) (m : String),
      store.scan 10 = .error (.clientError m) →
      (list_items store []).1 =
        .ok ⟨500, Val.dict [("error", Val.str "Database error")]⟩) ∧
    (∀ (store : Store) (now : Int) (c : Context) (m : String),
      store.scan 10 = .error (.other m) →
      lambda_handler store now
          (Val.dict [("httpMethod", Val.str "GET"),
                     ("path", Val.str "/items")]) c =
        .ok ⟨500, Val.dict [("error", Val.str "Internal error")]⟩) ∧
    (∀ (store : Store) (now : Int) (c : Context) (m : String)
        (b : Val) (k : String),
      (∀ v, store.putItem v = .error (.other m)) →
      lambda_handler store now
          (Val.dict [("Records", Val.list [s3Record b k])]) c =
        .ok ⟨500, Val.dict [("error", Val.str "Internal error")]⟩) := by
  refine ⟨?_, ?_, ?_, ?_, ?_, ?_, ?_⟩
  · intro store e hscan
    simp [process_scheduled_task, hscan]
  · intro store m hscan
    simp [process_api_gateway_request, pyDictGet, Val.eqStr, hscan, bind,
      Except.bind, pure, Except.pure, List.lookup]
  · intro store now fields nm m hname hput
    have hany := any_of_lookup_some "name" fields nm hname
    have htr : (Val.dict fields).truthy = true := by
      cases fields with
      | nil => simp [List.lookup] at hname
      | cons q qs => simp [Val.truthy]
    simp [create_item, create_item_inner, pyContains, pyGetItem, pyDictGet,
      hany, hname, htr, hput, bind, Except.bind, pure, Except.pure]
  · intro store now fields nm m hname hput
    have hany := any_of_lookup_some "name" fields nm hname
    have htr : (Val.dict fields).truthy = true := by
      cases fields with
      | nil => simp [List.lookup] at hname
      | cons q qs => simp [Val.truthy]
    simp [create_item, create_item_inner, pyContains, pyGetItem, pyDictGet,
      hany, hname, htr, hput, bind, Except.bind, pure, Except.pure]
  · intro store m hscan
    simp [list_items, List.lookup, hscan]
  · intro store now c m hscan
    have hclass : determine_event_source
        (Val.dict [("httpMethod", Val.str "GET"),
                   ("path", Val.str "/items")]) = .ok "api_gateway" := rfl
    have hgw : process_api_gateway_request store
        (Val.dict [("httpMethod", Val.str "GET"),
                   ("path", Val.str "/items")]) = .error (.other m) := by
      simp [process_api_gateway_request, pyDictGet, List.lookup, Val.eqStr,
        hscan, bind, Except.bind, pure, Except.pure, throw, throwThe,
        MonadExceptOf.throw]
    simp [lambda_handler, hclass, hgw, bind, Except.bind, pure, Except.pure]
  · intro store now c m b k hput
    have hclass : determine_event_source
        (Val.dict [("Records", Val.list [s3Record b k])]) = .ok "s3" := rfl
    have hstep : s3Loop store now [s3Record b k] =
        (match store.putItem (s3Item now b k) with
         | .ok _ => Except.bind (s3Loop store now [])
             (fun restItems => Except.ok (s3Item now b k :: restItems))
         | .error (.clientError _) => Except.bind (s3Loop store now [])
             (fun restItems => Except.ok (s3Item now b k :: restItems))
         | .error (.other m2) => Except.error (.other m2)) := rfl
    have hloop : s3Loop store now [s3Record b k] = .error (.other m) := by
      rw [hstep, hput]
    have hs3 : process_s3_event store now
        (Val.dict [("Records", Val.list [s3Record b k])]) =
        .error (.other m) := by
      simp [process_s3_event, pyDictGet, pyIter, List.lookup, hloop, bind,
        Except.bind, pure, Except.pure]
    simp [lambda_handler, hclass, hs3, bind, Except.bind, pure, Except.pure]

/-- A store whose every put raises `ClientError` with internal text. -/
def putFailClientStore : Store where
  scan := fun _ => .error (.clientError "ProvisionedThroughputExceeded")
  scanExpired := .ok []
  deleteItem := fun _ => .ok ()
  putItem := fun _ => .error (.clientError "AccessDeniedException internal detail")

/-- A store whose every put raises a non-`ClientError` exception. -/
def putFailOtherStore : Store where
  scan := fun _ => .error (.clientError "ProvisionedThroughputExceeded")
  scanExpired := .ok []
  deleteItem := fun _ => .ok ()
  putItem := fun _ => .error (.other "ConnectionResetError internal detail")

/-- A store whose scan raises a non-`ClientError` exception. -/
def scanOtherFailStore : Store where
  scan := fun _ => .error (.other "socket timeout internal detail")
  scanExpired := .ok []
  deleteItem := fun _ => .ok ()
  putItem := fun _ => .ok ()

/-- Witness for the amended C6: each conjunct applied at a concrete
store and input, checking the concrete bodies. -/
theorem collaborator_error_bodies_witness :
    (process_scheduled_task leakStoreA).1 =
      ⟨500, Val.dict [("error",
        Val.str "ConnectionError: store unreachable A")]⟩ ∧
    process_api_gateway_request putFailClientStore
        (Val.dict [("httpMethod", Val.str "GET"),
                   ("path", Val.str "/items")]) =
      .ok ⟨500, Val.dict [("error", Val.str "Database error")]⟩ ∧
    create_item putFailClientStore 0 (Val.dict [("name", Val.str "n")]) =
      ⟨500, Val.dict [("error", Val.str "Database error")]⟩ ∧
    create_item putFailOtherStore 0 (Val.dict [("name", Val.str "n")]) =
      ⟨500, Val.dict [("error", Val.str "Internal server error")]⟩ ∧
    (list_items putFailClientStore []).1 =
      .ok ⟨500, Val.dict [("error", Val.str "Database error")]⟩ ∧
    lambda_handler scanOtherFailStore 0
        (Val.dict [("httpMethod", Val.str "GET"),
                   ("path", Val.str "/items")]) ⟨"req-2"⟩ =
      .ok ⟨500, Val.dict [("error", Val.str "Internal error")]⟩ ∧
    lambda_handler putFailOtherStore 0
        (Val.dict [("Records", Val.list [s3Record (Val.str "bkt") "a/b"])])
        ⟨"req-3"⟩ =
      .ok ⟨500, Val.dict [("error", Val.str "Internal error")]⟩ :=
  ⟨collaborator_error_bodies.1 leakStoreA
      (.clientError "ConnectionError: store unreachable A") rfl,
   collaborator_error_bodies.2.1 putFailClientStore
      "ProvisionedThroughputExceeded" rfl,
   collaborator_error_bodies.2.2.1 putFailClientStore 0
      [("name", Val.str "n")] (Val.str "n")
      "AccessDeniedException internal detail" rfl (fun _ => rfl),
   collaborator_error_bodies.2.2.2.1 putFailOtherStore 0
      [("name", Val.str "n")] (Val.str "n")
      "ConnectionResetError internal detail" rfl (fun _ => rfl),
   collaborator_error_bodies.2.2.2.2.1 putFailClientStore
      "ProvisionedThroughputExceeded" rfl,
   collaborator_error_bodies.2.2.2.2.2.1 scanOtherFailStore 0 ⟨"req-2"⟩
      "socket timeout internal detail" rfl,
   collaborator_error_bodies.2.2.2.2.2.2 putFailOtherStore 0 ⟨"req-3"⟩
      "ConnectionResetError internal detail" (Val.str "bkt") "a/b"
      (fun _ => rfl)⟩

/-- A store on which every collaborator call succeeds. -/
def okStore : Store where
  scan := fun _ => .ok ([], none)
  scanExpired := .ok []
  deleteItem := fun _ => .ok ()
  putItem := fun _ => .ok ()

/-- C7 counterexample: a batch whose second record lacks the `s3`
structure makes the ObjectStorageBatch handler raise (`record['s3']`
sits outside the try), aborting the batch — the failure is neither
swallowed nor followed by a 200 response, even though every store call
succeeds. -/
theorem s3_malformed_record_aborts :
    process_s3_event okStore 0
        (Val.dict [("Records",
          Val.list [s3Record (Val.str "bkt") "a/b", Val.dict []])]) =
      .error (.other "KeyError: s3") := rfl

/-- On well-formed records, the put loop attempts one put per record in
order, swallowing every `ClientError` from the store, provided the store
never raises a non-`ClientError`. -/
theorem s3Loop_all_attempted (store : Store) (now : Int)
    (hput : ∀ v m, store.putItem v ≠ .error (.other m)) :
    ∀ pairs : List (Val × String),
      s3Loop store now (pairs.map (fun p => s3Record p.1 p.2)) =
        .ok (pairs.map (fun p => s3Item now p.1 p.2)) := by
  intro pairs
  induction pairs with
  | nil => rfl
  | cons q rest ih =>
    have hstep : s3Loop store now
        (s3Record q.1 q.2 :: rest.map (fun p => s3Record p.1 p.2)) =
        (match store.putItem (s3Item now q.1 q.2) with
         | .ok _ => Except.bind
             (s3Loop store now (rest.map (fun p => s3Record p.1 p.2)))
             (fun restItems => Except.ok (s3Item now q.1 q.2 :: restItems))
         | .error (.clientError _) => Except.bind
             (s3Loop store now (rest.map (fun p => s3Record p.1 p.2)))
             (fun restItems => Except.ok (s3Item now q.1 q.2 :: restItems))
         | .error (.other m) => Except.error (.other m)) := rfl
    rw [List.map_cons, hstep]
    cases hp : store.putItem (s3Item now q.1 q.2) with
    | ok u => simp [hp, Except.bind, ih]
    | error e =>
      cases e with
      | clientError m => simp [hp, Except.bind, ih]
      | other m => exact absurd hp (hput _ m)

/-- C7 (amended): per-record STORE failures (`ClientError` from the put)
are logged and swallowed — they do not increment any failure count and
do not abort the loop — and on a batch whose records all carry the
s3 bucket/key structure the response is status 200 with a body reporting
the total number of records in the batch, with one put attempted per
record; but a record missing that structure raises and aborts the whole
batch (surfaced as a 500 by the top-level handler). -/
theorem s3_put_failures_swallowed (store : Store) (now : Int)
    (pairs : List (Val × String))
    (hput : ∀ v m, store.putItem v ≠ .error (.other m)) :
    process_s3_event store now
        (Val.dict [("Records",
          Val.list (pairs.map (fun p => s3Record p.1 p.2)))]) =
      .ok (⟨200, Val.dict [("processed", Val.num pairs.length)]⟩,
           pairs.map (fun p => s3Item now p.1 p.2)) := by
  have hloop := s3Loop_all_attempted store now hput pairs
  simp [process_s3_event, pyDictGet, pyIter, List.lookup, hloop, bind,
    Except.bind, pure, Except.pure]

/-- A store whose puts always fail with `ClientError`, never with any
other exception class. -/
def putClientErrOnlyStore : Store where
  scan := fun _ => .ok ([], none)
  scanExpired := .ok []
  deleteItem := fun _ => .ok ()
  putItem := fun _ => .error (.clientError "put rejected")

/-- Witness for the amended C7: two records, both puts fail with
`ClientError`, yet the handler still attempts both puts and returns 200
with the total count 2. -/
theorem s3_put_failures_swallowed_witness :
    process_s3_event putClientErrOnlyStore 7
        (Val.dict [("Records",
          Val.list [s3Record (Val.str "bkt") "a/b",
                    s3Record (Val.str "bkt") "c"])]) =
      .ok (⟨200, Val.dict [("processed", Val.num 2)]⟩,
           [s3Item 7 (Val.str "bkt") "a/b", s3Item 7 (Val.str "bkt") "c"]) := by
  have := s3_put_failures_swallowed putClientErrOnlyStore 7
    [(Val.str "bkt", "a/b"), (Val.str "bkt", "c")]
    (by intro v m h; exact PyErr.noConfusion (Except.error.inj h))
  simpa using this

/-- C8 counterexample: a request with `limit=0` passes page size 0 to the
store scan — the handler computes `min(int(limit), 100)`, which caps the
value above at 100 but applies no lower bound, so the limit is NOT
clamped into the interval [1, 100]. -/
theorem list_limit_zero_not_clamped :
    (list_items okStore [("limit", "0")]).2 = [0] ∧
    ¬((1 : Int) ≤ 0 ∧ (0 : Int) ≤ 100) :=
  ⟨rfl, by decide⟩

/-- C8 (amended): the caller-supplied limit is capped above at 100
(`min(int(limit), 100)`) before being passed as the page size of the
store scan; no lower bound is enforced; in particular a request with
`limit=500` is treated exactly as `limit=100`. -/
theorem list_limit_capped_above (store : Store) (s : String) (n : Int)
    (h : pyInt s = .ok n) :
    (list_items store [("limit", s)]).2 = [min n 100] ∧
    list_items store [("limit", "500")] = list_items store [("limit", "100")] := by
  constructor
  · simp only [list_items,
      show (List.lookup "limit" [("limit", s)] : Option String) = some s
        from rfl, h]
    cases hs : store.scan (min n 100) with
    | ok page => simp [hs]
    | error e => cases e <;> simp [hs]
  · rfl

/-- Witness for the amended C8: at `limit=7` the scan is called with page
size 7, and the `limit=500` request equals the `limit=100` request. -/
theorem list_limit_capped_above_witness :
    (list_items okStore [("limit", "7")]).2 = [7] ∧
    list_items okStore [("limit", "500")] =
      list_items okStore [("limit", "100")] := by
  have := list_limit_capped_above okStore "7" 7 rfl
  simpa using this

/-- C9: the list route never reads the caller-supplied `last_key` query
parameter — any two requests that agree on `limit` (in particular, two
requests differing only in the value or presence of `last_key`) issue
the identical store scan and return the identical outcome. -/
theorem list_ignores_last_key (store : Store)
    (args1 args2 : List (String × String))
    (h : args1.lookup "limit" = args2.lookup "limit") :
    list_items store args1 = list_items store args2 := by
  simp only [list_items, h]

/-- Witness for C9: a request with `last_key=abc` and one without it
produce identical results. -/
theorem list_ignores_last_key_witness :
    list_items okStore [("limit", "5"), ("last_key", "abc")] =
      list_items okStore [("limit", "5")] :=
  list_ignores_last_key okStore [("limit", "5"), ("last_key", "abc")]
    [("limit", "5")] rfl

/-- When the StreamBatch handler returns without raising, its status is
always 200 (failures are reported in the body, never in the status). -/
theorem process_dynamodb_stream_status (event : Val) (env : Envelope)
    (h : process_dynamodb_stream event = .ok env) : env.statusCode = 200 := by
  simp only [process_dynamodb_stream, bind, Except.bind] at h
  cases hd : pyDictGet event "Records" (Val.list []) with
  | error e => rw [hd] at h; cases h
  | ok v =>
    rw [hd] at h
    dsimp only at h
    cases hi : pyIter v with
    | error e => rw [hi] at h; cases h
    | ok rs =>
      rw [hi] at h
      dsimp only at h
      simp only [pure, Except.pure, Except.ok.injEq] at h
      rw [← h]

/-- The API-gateway branch returns 200, 404 or 500 when it returns. -/
theorem process_api_gateway_request_status (store : Store) (event : Val)
    (env : Envelope) (h : process_api_gateway_request store event = .ok env) :
    env.statusCode = 200 ∨ env.statusCode = 404 ∨ env.statusCode = 500 := by
  simp only [process_api_gateway_request, bind, Except.bind] at h
  cases hm : pyDictGet event "httpMethod" (Val.str "GET") with
  | error e => rw [hm] at h; cases h
  | ok mv =>
    rw [hm] at h
    dsimp only at h
    cases hp : pyDictGet event "path" (Val.str "/") with
    | error e => rw [hp] at h; cases h
    | ok pv =>
      rw [hp] at h
      dsimp only at h
      by_cases hroute : (mv.eqStr "GET" && pv.eqStr "/items") = true
      · rw [if_pos hroute] at h
        cases hs : store.scan 10 with
        | ok page =>
          rw [hs] at h
          simp only [pure, Except.pure, Except.ok.injEq] at h
          rw [← h]; left; rfl
        | error e =>
          rw [hs] at h
          cases e with
          | clientError m =>
            simp only [pure, Except.pure, Except.ok.injEq] at h
            rw [← h]; right; right; rfl
          | other m => simp only [throw, throwThe, MonadExceptOf.throw] at h; cases h
      · rw [if_neg hroute] at h
        simp only [pure, Except.pure, Except.ok.injEq] at h
        rw [← h]; right; left; rfl

/-- The ScheduledTrigger handler always returns, with status 200 or 500. -/
theorem process_scheduled_task_status (store : Store) :
    (process_scheduled_task store).1.statusCode = 200 ∨
    (process_scheduled_task store).1.statusCode = 500 := by
  unfold process_scheduled_task
  cases hs : store.scanExpired with
  | error e => right; rfl
  | ok items =>
    cases hl : cleanupLoop store.deleteItem items 0 with
    | mk r calls =>
      cases r with
      | ok n => left; simp [hl]
      | error e => right; simp [hl]

/-- When the ObjectStorageBatch handler returns without raising, its
status is always 200. -/
theorem process_s3_event_status (store : Store) (now : Int) (event : Val)
    (env : Envelope) (puts : List Val)
    (h : process_s3_event store now event = .ok (env, puts)) :
    env.statusCode = 200 := by
  simp only [process_s3_event, bind, Except.bind] at h
  cases hd : pyDictGet event "Records" (Val.list []) with
  | error e => rw [hd] at h; cases h
  | ok v =>
    rw [hd] at h
    dsimp only at h
    cases hi : pyIter v with
    | error e => rw [hi] at h; cases h
    | ok rs =>
      rw [hi] at h
      dsimp only at h
      cases hl : s3Loop store now rs with
      | error e => rw [hl] at h; cases h
      | ok items =>
        rw [hl] at h
        dsimp only at h
        simp only [pure, Except.pure, Except.ok.injEq, Prod.mk.injEq] at h
        rw [← h.1]

/-- C10: whenever classification does not raise (and the context provides
a request id), the Lambda entry point returns an envelope whose status is
one of 200, 400, 404, 500, and never propagates an exception: the
top-level catch-all converts every dispatch or handler exception into a
500 envelope. -/
theorem lambda_handler_total (store : Store) (now : Int) (event : Val)
    (context : Context) (tag : String)
    (h : determine_event_source event = .ok tag) :
    ∃ env, lambda_handler store now event context = .ok env ∧
      (env.statusCode = 200 ∨ env.statusCode = 400 ∨
       env.statusCode = 404 ∨ env.statusCode = 500) := by
  simp only [lambda_handler, h, bind, Except.bind, pure, Except.pure]
  by_cases h1 : tag = "dynamodb"
  · simp only [h1, if_true]
    cases hr : process_dynamodb_stream event with
    | ok env =>
      exact ⟨env, by simp [hr],
        Or.inl (process_dynamodb_stream_status event env hr)⟩
    | error e =>
      exact ⟨⟨500, Val.dict [("error", Val.str "Internal error")]⟩,
        by simp [hr], by simp⟩
  · simp only [h1, if_false]
    by_cases h2 : tag = "api_gateway"
    · simp only [h2, if_true]
      cases hr : process_api_gateway_request store event with
      | ok env =>
        refine ⟨env, by simp [hr], ?_⟩
        rcases process_api_gateway_request_status store event env hr with
          hc | hc | hc
        · exact Or.inl hc
        · exact Or.inr (Or.inr (Or.inl hc))
        · exact Or.inr (Or.inr (Or.inr hc))
      | error e =>
        exact ⟨⟨500, Val.dict [("error", Val.str "Internal error")]⟩,
          by simp [hr], by simp⟩
    · simp only [h2, if_false]
      by_cases h3 : tag = "cloudwatch_events"
      · simp only [h3, if_true]
        refine ⟨(process_scheduled_task store).1, by simp, ?_⟩
        rcases process_scheduled_task_status store with hc | hc
        · exact Or.inl hc
        · exact Or.inr (Or.inr (Or.inr hc))
      · simp only [h3, if_false]
        by_cases h4 : tag = "s3"
        · simp only [h4, if_true]
          cases hr : process_s3_event store now event with
          | ok pr =>
            refine ⟨pr.1, by simp [hr], ?_⟩
            exact Or.inl (process_s3_event_status store now event pr.1 pr.2
              (by rw [hr]))
          | error e =>
            exact ⟨⟨500, Val.dict [("error", Val.str "Internal error")]⟩,
              by simp [hr], by simp⟩
        · simp only [h4, if_false]
          exact ⟨⟨400, Val.dict [("error", Val.str "Unknown event source")]⟩,
            by simp, by simp⟩

/-- Witness for C10: on an empty mapping event (classified `unknown`)
the entry point returns the 400 unknown-source envelope. -/
theorem lambda_handler_total_witness :
    ∃ env, lambda_handler okStore 0 (Val.dict []) ⟨"req-1"⟩ = .ok env ∧
      (env.statusCode = 200 ∨ env.statusCode = 400 ∨
       env.statusCode = 404 ∨ env.statusCode = 500) :=
  lambda_handler_total okStore 0 (Val.dict []) ⟨"req-1"⟩ "unknown" rfl
